import Mathlib

/-!
Verification of the healthcare-rss-backend request handlers.

The repository has two Netlify-style request handlers:
  - netlify/functions/test-rss.js    (feed validation: admission filter,
    bounded fetch, feed classification, message mapping)
  - netlify/functions/trigger-github.js  (dispatch of a workflow run)

This file shallowly embeds the JavaScript source.  JavaScript objects with
possibly absent fields are modelled with Option; fallible library calls
(JSON.parse, new URL, the network request) are modelled by per-call-site
oracles quantified in the theorems; a thrown JavaScript error is modelled
by the error side of Except.  JavaScript strings are modelled by Lean
String, with the string methods includes, startsWith and toLowerCase
given executable char-list models below.
-/

/-- Model of JavaScript substring search: true when needle occurs as a
contiguous sublist of the haystack. -/
def subList (needle : List Char) : List Char → Bool
  | [] => needle.isEmpty
  | c :: rest => needle.isPrefixOf (c :: rest) || subList needle rest

/-- Model of the JavaScript method s.includes(pat). -/
def jsIncludes (s pat : String) : Bool := subList pat.data s.data

/-- Model of the JavaScript method s.startsWith(pre). -/
def jsStartsWith (s pre : String) : Bool := pre.data.isPrefixOf s.data

/-- Model of the JavaScript method s.toLowerCase(), char-wise. -/
def jsToLower (s : String) : String := String.mk (s.data.map Char.toLower)

/-- A JSON scalar value, used for the (flat) JSON response bodies the two
handlers build with JSON.stringify. -/
inductive JsonVal where
  | null
  | bool (b : Bool)
  | num (n : Nat)
  | str (s : String)
  deriving DecidableEq

/-- A handler response: HTTP status code plus the JSON object body.
The CORS headers attached to every response are out of scope. -/
structure Response where
  statusCode : Nat
  body : List (String × JsonVal)
  deriving DecidableEq

/-- A JavaScript error value as observed by the catch blocks: the optional
machine-readable code property (absent on plain new Error(...)) and the
message property. -/
structure JsError where
  code : Option String
  message : String
  deriving DecidableEq

/-- test-rss.js, isLocalOrPrivateIP (lines 236-250): blocks the three
loopback literals and any hostname with one of three private prefixes. -/
def isLocalOrPrivateIP (hostname : String) : Bool :=
  if ["localhost", "127.0.0.1", "::1"].contains hostname then
    true
  else if jsStartsWith hostname "192.168." || jsStartsWith hostname "10." ||
      jsStartsWith hostname "172." then
    true
  else
    false

/-- test-rss.js, makeHttpRequest (line 207): const maxChunks = 50. -/
def maxChunks : Nat := 50

/-- The mutable state of the data listener in makeHttpRequest:
let data = .. ; let chunks = 0. -/
structure RecvState where
  data : String
  chunks : Nat
  deriving DecidableEq

/-- test-rss.js, makeHttpRequest (lines 209-214), the data event listener:
chunks++; if (chunks <= maxChunks) data += chunk. -/
def onData (st : RecvState) (chunk : String) : RecvState :=
  if st.chunks + 1 ≤ maxChunks then
    { data := st.data ++ chunk, chunks := st.chunks + 1 }
  else
    { data := st.data, chunks := st.chunks + 1 }

/-- The object resolved by makeHttpRequest (lines 216-222):
statusCode, headers, data.  The truncated field is Option Bool to model
JavaScript field access on the resolved object: the code never sets such
a field, so it is none (undefined). -/
structure HttpResponse where
  statusCode : Nat
  headers : List (String × String)
  data : String
  truncated : Option Bool
  deriving DecidableEq

/-- test-rss.js, makeHttpRequest (lines 187-233), restricted to the
response-capture logic: given the status, headers and the list of data
chunks delivered by the transport, produce the resolved object. -/
def makeHttpRequest (statusCode : Nat) (headers : List (String × String))
    (stream : List String) : HttpResponse :=
  let final := stream.foldl onData { data := "", chunks := 0 }
  { statusCode := statusCode, headers := headers, data := final.data,
    truncated := none }

/-- test-rss.js line 123: response.headers with the content-type key, with
the empty string substituted when absent.  The headers mapping is as
delivered by the Node transport, which normalises header names to lower
case. -/
def contentTypeOf (headers : List (String × String)) : String :=
  (headers.lookup "content-type").getD ""

/-- test-rss.js line 124: the content-type signal. -/
def isXMLContentType (contentType : String) : Bool :=
  jsIncludes contentType "xml" || jsIncludes contentType "rss" ||
    jsIncludes contentType "atom"

/-- test-rss.js line 126: response.data.substring(0, 1000).toLowerCase(). -/
def bodyPreviewOf (data : String) : String := jsToLower (data.take 1000)

/-- test-rss.js lines 127-131: the markup heuristic over the body
preview. -/
def hasRSSElements (data : String) : Bool :=
  jsIncludes (bodyPreviewOf data) "<rss" ||
    jsIncludes (bodyPreviewOf data) "<feed" ||
    jsIncludes (bodyPreviewOf data) "<?xml" ||
    jsIncludes (bodyPreviewOf data) "<channel" ||
    jsIncludes (bodyPreviewOf data) "<atom"

/-- test-rss.js line 133: isValidRSS = isXMLContentType || hasRSSElements. -/
def isValidRSS (headers : List (String × String)) (data : String) : Bool :=
  isXMLContentType (contentTypeOf headers) || hasRSSElements data

/-- test-rss.js lines 135-142: the result-to-message mapping. -/
def selectMessage (valid : Bool) (statusCode : Nat) : String :=
  if valid then
    "✅ Feed looks valid! Ready to save."
  else if statusCode = 200 then
    "⚠️ URL accessible but doesn\u0027t appear to be an RSS feed"
  else
    "⚠️ HTTP " ++ toString statusCode ++
      " - Server responded but may not be a valid feed"

/-- test-rss.js lines 163-172: the catch block error-message selection,
keyed on the machine-readable code of the caught error, with a generic
prefix plus the raw message as fallback. -/
def selectErrorMessage (error : JsError) : String :=
  if error.code = some "ENOTFOUND" then
    "Domain not found - please check the URL"
  else if error.code = some "ECONNREFUSED" then
    "Connection refused - server may be down"
  else if error.code = some "ETIMEDOUT" then
    "Request timeout - server took too long to respond"
  else if error.message ≠ "" then
    "Error testing feed" ++ ": " ++ error.message
  else
    "Error testing feed"

/-- test-rss.js lines 226-229: on the timeout event the request is
destroyed and the promise rejects with new Error of this message.  A plain
Error has no code property, hence code is none. -/
def timeoutRejection : JsError := { code := none, message := "Request timeout" }

/-- A JavaScript field value as seen after destructuring: absent
(undefined), a string, or some non-string value. -/
inductive JsField where
  | absent
  | str (s : String)
  | other
  deriving DecidableEq

/-- The parsed request body of test-rss.js (line 59): the url field. -/
structure RequestData where
  url : JsField
  deriving DecidableEq

/-- The object produced by new URL(url) in test-rss.js (line 77). -/
structure ParsedUrl where
  protocol : String
  hostname : String
  port : String
  pathname : String
  search : String
  deriving DecidableEq

/-- Outcome of awaiting makeHttpRequest: the resolved response object, or
the rejection value (a request error or the timeout rejection). -/
inductive FetchOutcome where
  | success (response : HttpResponse)
  | failure (error : JsError)
  deriving DecidableEq

/-- Oracle for the fallible library calls made by the test-rss handler:
the outcome of JSON.parse on the request body, of new URL on the url
string, of the awaited network request, and the timestamp produced by
new Date. -/
structure RssOracle where
  parseBody : Option RequestData
  parseUrl : String → Option ParsedUrl
  fetch : ParsedUrl → FetchOutcome
  now : String

/-- The inbound event as used by the test-rss handler. -/
structure Event where
  httpMethod : String
  body : Option String
  deriving DecidableEq

/-- The 400 error response shape shared by the validation returns of both
handlers. -/
def resp400 (error : String) : Response :=
  { statusCode := 400,
    body := [("success", .bool false), ("error", .str error)] }

/-- test-rss.js handler (lines 8-184): CORS preflight, method check, body
parse, url validation, admission filter, fetch, classification, response
assembly, and the catch block. -/
def rssHandler (event : Event) (oracle : RssOracle) : Response :=
  if event.httpMethod = "OPTIONS" then
    { statusCode := 200, body := [("message", .str "CORS OK")] }
  else if event.httpMethod ≠ "POST" then
    { statusCode := 405,
      body := [("success", .bool false),
               ("error", .str "Only POST requests allowed")] }
  else
    match oracle.parseBody with
    | none => resp400 "Invalid JSON in request body"
    | some requestData =>
      match requestData.url with
      | .absent => resp400 "Valid URL is required"
      | .other => resp400 "Valid URL is required"
      | .str url =>
        if url = "" then resp400 "Valid URL is required"
        else
          match oracle.parseUrl url with
          | none => resp400 "Invalid URL format"
          | some parsedUrl =>
            if !(["http:", "https:"].contains parsedUrl.protocol) then
              resp400 "Only HTTP and HTTPS URLs are allowed"
            else if isLocalOrPrivateIP parsedUrl.hostname then
              resp400 "Local and private URLs are not allowed for security reasons"
            else
              match oracle.fetch parsedUrl with
              | .failure error =>
                { statusCode := 500,
                  body := [("success", .bool false),
                           ("error", .str (selectErrorMessage error)),
                           ("timestamp", .str oracle.now)] }
              | .success response =>
                { statusCode := 200,
                  body := [("success", .bool true),
                           ("valid", .bool (isValidRSS response.headers response.data)),
                           ("status", .num response.statusCode),
                           ("message", .str (selectMessage
                             (isValidRSS response.headers response.data)
                             response.statusCode)),
                           ("contentType", .str (contentTypeOf response.headers)),
                           ("url", .str url),
                           ("timestamp", .str oracle.now)] }

/-- Spec-side definition for the claim about the classifier, following the
words of the specification: the content-type signal fires when the header
value contains any of the substrings xml, rss, atom. -/
def contentTypeSignal (headers : List (String × String)) : Bool :=
  ["xml", "rss", "atom"].any (fun pat => jsIncludes (contentTypeOf headers) pat)

/-- Spec-side definition: the markup signal fires when the lower-cased
body prefix contains any of the five feed markers. -/
def markupSignal (data : String) : Bool :=
  ["<rss", "<feed", "<?xml", "<channel", "<atom"].any
    (fun pat => jsIncludes (bodyPreviewOf data) pat)

/-- trigger-github.js line 78: the fixed closed set of trigger kinds. -/
def validTriggers : List String :=
  ["new_feed", "full_refresh", "scheduled", "cleanup_only"]

/-- trigger-github.js line 86: the 400 message listing the valid values,
built with validTriggers.join(", "). -/
def invalidTriggerError : String :=
  "trigger_type must be one of: " ++ String.intercalate ", " validTriggers

/-- The parsed request body of trigger-github.js (line 62): trigger_type
may be absent, a string, or a non-string value; feed_id is modelled as a
string or absent. -/
structure TriggerData where
  trigger_type : JsField
  feed_id : Option String
  deriving DecidableEq

/-- The three required configuration values read from process.env
(trigger-github.js lines 92-94) plus the NODE_ENV development switch used
by the catch block (line 255).  A process.env entry is a string or
undefined. -/
structure EnvVars where
  GITHUB_TOKEN : Option String
  GITHUB_OWNER : Option String
  GITHUB_REPO : Option String
  nodeEnvDevelopment : Bool
  deriving DecidableEq

/-- JavaScript falsiness of an environment value: undefined or the empty
string (trigger-github.js line 97). -/
def envMissing : Option String → Bool
  | none => true
  | some s => s == ""

/-- The parsed JSON error body of a non-204 GitHub response
(trigger-github.js lines 214-219): its message field and its errors
field. -/
structure GithubErrorBody where
  message : Option String
  errors : Option JsonVal
  deriving DecidableEq

/-- JavaScript truthiness of a JSON value, for the errorData.errors check
(trigger-github.js line 218). -/
def jsonTruthy : JsonVal → Bool
  | .null => false
  | .bool b => b
  | .num n => !(n == 0)
  | .str s => !(s == "")

/-- Outcome of awaiting the https request to the GitHub API
(trigger-github.js lines 151-185): a response with status and body data,
or a rejection (request error, or the timeout rejection). -/
inductive GithubOutcome where
  | response (statusCode : Nat) (data : String)
  | reqError (error : JsError)
  deriving DecidableEq

/-- The inbound event as used by the trigger-github handler.  The headers
object itself may be absent from a malformed event; line 8 of the source
reads event.headers.origin before the try block. -/
structure TriggerEvent where
  headers : Option (List (String × String))
  httpMethod : String
  body : Option String
  deriving DecidableEq

/-- Oracle for the fallible library calls of the trigger-github handler:
the outcome of JSON.parse on the request body, the environment, the
awaited GitHub API call, the outcome of JSON.parse on the GitHub error
body, the stack rendering used in development mode, and the timestamp. -/
structure TriggerOracle where
  parseBody : Option TriggerData
  env : EnvVars
  github : GithubOutcome
  parseGithubError : String → Option GithubErrorBody
  stackVal : String
  now : String

/-- trigger-github.js lines 189-244: handling of the GitHub API response.
A 204 status yields the 200 success response; any other status yields the
500 failure response embedding the upstream status and, when the error
body parses and carries a truthy message, that message verbatim. -/
def handleGithubResponse (trigger_type : String) (feed_id : Option String)
    (owner repo : String) (oracle : TriggerOracle)
    (ghStatus : Nat) (ghData : String) : Response :=
  if ghStatus = 204 then
    { statusCode := 200,
      body := [("success", .bool true),
               ("message", .str ("GitHub Action triggered successfully for "
                 ++ trigger_type)),
               ("trigger_type", .str trigger_type),
               ("feed_id", match feed_id with
                           | some fid => if fid = "" then .null else .str fid
                           | none => .null),
               ("repository", .str (owner ++ "/" ++ repo)),
               ("workflow", .str "rss-scraper.yml"),
               ("timestamp", .str oracle.now)] }
  else
    let parsed := oracle.parseGithubError ghData
    let errorMessage :=
      match parsed with
      | some errorData =>
        match errorData.message with
        | some m =>
          if m = "" then "GitHub API returned status " ++ toString ghStatus
          else "GitHub API returned status " ++ toString ghStatus ++ ": " ++ m
        | none => "GitHub API returned status " ++ toString ghStatus
      | none => "GitHub API returned status " ++ toString ghStatus
    let errorDetails : JsonVal :=
      match parsed with
      | some errorData =>
        match errorData.errors with
        | some e => if jsonTruthy e then e else .null
        | none => .null
      | none => .null
    { statusCode := 500,
      body := [("success", .bool false),
               ("error", .str errorMessage),
               ("github_status", .num ghStatus),
               ("github_response", .str ghData),
               ("trigger_type", .str trigger_type),
               ("details", errorDetails),
               ("timestamp", .str oracle.now)] }

/-- trigger-github.js lines 246-258: the top-level catch block, returning
the 500 internal-error response; the stack field is present only in
development mode (JSON.stringify drops an undefined field). -/
def triggerCatchResponse (error : JsError) (oracle : TriggerOracle) : Response :=
  { statusCode := 500,
    body := [("success", .bool false),
             ("error", .str "Internal server error"),
             ("message", .str error.message)]
      ++ (if oracle.env.nodeEnvDevelopment then
            [("stack", .str oracle.stackVal)] else [])
      ++ [("timestamp", .str oracle.now)] }

/-- trigger-github.js lines 45-244: the body of the try block.  The only
operation that can throw out of it is the awaited GitHub request; the
JSON.parse of the request body is guarded by its own inner try. -/
def triggerTryBlock (event : TriggerEvent) (oracle : TriggerOracle) :
    Except JsError Response :=
  let requestData? : Option TriggerData :=
    match event.body with
    | none => some { trigger_type := .absent, feed_id := none }
    | some b =>
      if b = "" then some { trigger_type := .absent, feed_id := none }
      else oracle.parseBody
  match requestData? with
  | none => .ok (resp400 "Invalid JSON in request body")
  | some requestData =>
    match requestData.trigger_type with
    | .absent => .ok (resp400 "trigger_type is required and must be a string")
    | .other => .ok (resp400 "trigger_type is required and must be a string")
    | .str trigger_type =>
      if trigger_type = "" then
        .ok (resp400 "trigger_type is required and must be a string")
      else if !(validTriggers.contains trigger_type) then
        .ok (resp400 invalidTriggerError)
      else if envMissing oracle.env.GITHUB_TOKEN ||
          envMissing oracle.env.GITHUB_OWNER ||
          envMissing oracle.env.GITHUB_REPO then
        .ok { statusCode := 500,
              body := [("success", .bool false),
                       ("error", .str "GitHub configuration missing. Please check environment variables.")] }
      else
        match oracle.github with
        | .reqError error => .error error
        | .response ghStatus ghData =>
          .ok (handleGithubResponse trigger_type requestData.feed_id
                ((oracle.env.GITHUB_OWNER).getD "")
                ((oracle.env.GITHUB_REPO).getD "")
                oracle ghStatus ghData)

/-- The TypeError thrown by event.headers.origin when the headers object
is undefined (trigger-github.js line 8); a TypeError has no code
property. -/
def originTypeError : JsError :=
  { code := none,
    message := "Cannot read properties of undefined (reading \u0027origin\u0027)" }

/-- trigger-github.js lines 6-260: the whole handler.  Line 8 reads
event.headers.origin before the try block, so an event without a headers
object makes the handler throw; otherwise the preflight and method checks
run, and every error raised inside the try block is converted to a
response by the catch block. -/
def triggerHandler (event : TriggerEvent) (oracle : TriggerOracle) :
    Except JsError Response :=
  match event.headers with
  | none => .error originTypeError
  | some _ =>
    if event.httpMethod = "OPTIONS" then
      .ok { statusCode := 200, body := [("message", .str "CORS preflight OK")] }
    else if event.httpMethod ≠ "POST" then
      .ok { statusCode := 405,
            body := [("success", .bool false),
                     ("error", .str "Only POST requests allowed"),
                     ("method", .str event.httpMethod)] }
    else
      match triggerTryBlock event oracle with
      | .ok r => .ok r
      | .error error => .ok (triggerCatchResponse error oracle)

/-! Helper lemmas about the JavaScript string models. -/

theorem isPrefixOf_append_self (m q : List Char) :
    m.isPrefixOf (m ++ q) = true := by
  induction m with
  | nil => simp [List.isPrefixOf]
  | cons a as ih => simp [List.isPrefixOf, ih]

theorem subList_of_isPrefixOf (m l : List Char) (h : m.isPrefixOf l = true) :
    subList m l = true := by
  cases l with
  | nil =>
    cases m with
    | nil => rfl
    | cons a as => simp [List.isPrefixOf] at h
  | cons c rest => simp only [subList, h, Bool.true_or]

theorem subList_append (p m q : List Char) : subList m (p ++ m ++ q) = true := by
  induction p with
  | nil =>
    rw [List.nil_append]
    exact subList_of_isPrefixOf m (m ++ q) (isPrefixOf_append_self m q)
  | cons c p' ih =>
    rw [List.cons_append, List.cons_append]
    simp only [subList]
    rw [← List.cons_append, ← List.cons_append]
    simp only [List.cons_append, ih, Bool.or_true]

theorem jsIncludes_append_mid (p m q : String) :
    jsIncludes (p ++ m ++ q) m = true := by
  unfold jsIncludes
  rw [String.data_append, String.data_append]
  exact subList_append p.data m.data q.data

theorem jsIncludes_append_left (p m : String) : jsIncludes (p ++ m) m = true := by
  have h := jsIncludes_append_mid p m ""
  rwa [String.append_empty] at h

theorem foldl_append_join (l : List String) (a : String) :
    l.foldl (fun r s => r ++ s) a = a ++ String.join l := by
  induction l generalizing a with
  | nil => simp [String.join]
  | cons c cs ih =>
    rw [List.foldl_cons, ih]
    have h2 : String.join (c :: cs) = cs.foldl (fun r s => r ++ s) ("" ++ c) := rfl
    rw [h2, ih ("" ++ c), String.empty_append, String.append_assoc]

theorem stringJoin_cons (c : String) (cs : List String) :
    String.join (c :: cs) = c ++ String.join cs := by
  have h := foldl_append_join cs ("" ++ c)
  rw [String.empty_append] at h
  exact h

/-- The data accumulated by the chunk listener, from an arbitrary starting
state: the chunks received while the counter is at most the cap are
appended, the rest are discarded. -/
theorem foldl_onData_data (stream : List String) (d : String) (n : Nat) :
    (stream.foldl onData { data := d, chunks := n }).data =
      d ++ String.join (stream.take (maxChunks - n)) := by
  induction stream generalizing d n with
  | nil => simp [String.join]
  | cons c cs ih =>
    rw [List.foldl_cons]
    by_cases h : n + 1 ≤ maxChunks
    · have h2 : maxChunks - n = (maxChunks - (n + 1)) + 1 := by omega
      simp only [onData, h, if_pos]
      rw [ih, h2, List.take_succ_cons, stringJoin_cons, ← String.append_assoc]
    · have h3 : maxChunks - (n + 1) = 0 := by omega
      have h2 : maxChunks - n = 0 := by omega
      simp only [onData, h, if_neg, not_false_iff]
      rw [ih, h3, h2]
      simp [String.join]

/-! Claim theorems. -/

/-- C1: the admission filter isLocalOrPrivateIP returns true on the three
loopback literals and on every string starting with 10., 172. or
192.168., and returns false on example.com, 8.8.8.8 and 203.0.113.5. -/
theorem admission_filter_spec_examples (s : String)
    (h : jsStartsWith s "10." = true ∨ jsStartsWith s "172." = true ∨
      jsStartsWith s "192.168." = true) :
    isLocalOrPrivateIP "localhost" = true ∧
    isLocalOrPrivateIP "127.0.0.1" = true ∧
    isLocalOrPrivateIP "::1" = true ∧
    isLocalOrPrivateIP s = true ∧
    isLocalOrPrivateIP "example.com" = false ∧
    isLocalOrPrivateIP "8.8.8.8" = false ∧
    isLocalOrPrivateIP "203.0.113.5" = false := by
  refine ⟨by decide, by decide, by decide, ?_, by decide, by decide, by decide⟩
  unfold isLocalOrPrivateIP
  by_cases hc : (["localhost", "127.0.0.1", "::1"].contains s) = true
  · rw [if_pos hc]
  · rw [if_neg hc]
    rcases h with h | h | h <;> simp [h]

theorem admission_filter_spec_examples_witness :
    isLocalOrPrivateIP "10.0.0.8" = true ∧
    isLocalOrPrivateIP "172.20.1.1" = true ∧
    isLocalOrPrivateIP "192.168.1.1" = true :=
  ⟨(admission_filter_spec_examples "10.0.0.8" (Or.inl (by decide))).2.2.2.1,
   (admission_filter_spec_examples "172.20.1.1"
     (Or.inr (Or.inl (by decide)))).2.2.2.1,
   (admission_filter_spec_examples "192.168.1.1"
     (Or.inr (Or.inr (by decide)))).2.2.2.1⟩

/-- C10: the admission filter blocks only by exact literal match or one of
the three prefixes: every other hostname, such as 127.0.0.2, 0.0.0.0 or
LOCALHOST, is allowed. -/
theorem admission_filter_exact_match_only (s : String)
    (h1 : s ≠ "localhost") (h2 : s ≠ "127.0.0.1") (h3 : s ≠ "::1")
    (h4 : jsStartsWith s "10." = false) (h5 : jsStartsWith s "172." = false)
    (h6 : jsStartsWith s "192.168." = false) :
    isLocalOrPrivateIP s = false := by
  simp [isLocalOrPrivateIP, h4, h5, h6]
  exact ⟨h1, h2, h3⟩

theorem admission_filter_exact_match_only_witness :
    isLocalOrPrivateIP "127.0.0.2" = false ∧
    isLocalOrPrivateIP "0.0.0.0" = false ∧
    isLocalOrPrivateIP "LOCALHOST" = false :=
  ⟨admission_filter_exact_match_only "127.0.0.2" (by decide) (by decide)
     (by decide) (by decide) (by decide) (by decide),
   admission_filter_exact_match_only "0.0.0.0" (by decide) (by decide)
     (by decide) (by decide) (by decide) (by decide),
   admission_filter_exact_match_only "LOCALHOST" (by decide) (by decide)
     (by decide) (by decide) (by decide) (by decide)⟩

/-- C2 counterexample: on a stream of 51 chunks, more chunks arrived than
the cap, yet the resolved object carries no truncated flag at all (the
field is undefined), contradicting the claim that the result carries a
truncated flag that is true in that situation. -/
theorem makeHttpRequest_truncated_flag_missing :
    maxChunks < (List.replicate 51 "chunk").length ∧
    (makeHttpRequest 200 [] (List.replicate 51 "chunk")).truncated = none ∧
    (makeHttpRequest 200 [] (List.replicate 51 "chunk")).truncated ≠ some true := by
  refine ⟨by decide, rfl, by decide⟩

/-- C2 (amended): the captured body is exactly the concatenation of the
first fifty chunks of the stream (later chunks are read but discarded),
and the resolved object records no truncated flag. -/
theorem makeHttpRequest_body_is_first_fifty_chunks (statusCode : Nat)
    (headers : List (String × String)) (stream : List String) :
    (makeHttpRequest statusCode headers stream).data =
      String.join (stream.take maxChunks) ∧
    (makeHttpRequest statusCode headers stream).truncated = none := by
  constructor
  · show (stream.foldl onData { data := "", chunks := 0 }).data = _
    rw [foldl_onData_data, String.empty_append, Nat.sub_zero]
  · rfl

/-- C3: the classifier verdict is exactly the disjunction of the
content-type signal (the header value contains xml, rss or atom) and the
markup signal (the lower-cased 1000-char body prefix contains one of the
five feed markers). -/
theorem classifier_is_disjunction_of_signals
    (headers : List (String × String)) (data : String) :
    isValidRSS headers data = (contentTypeSignal headers || markupSignal data) := by
  simp [isValidRSS, isXMLContentType, hasRSSElements, contentTypeSignal,
    markupSignal, List.any_cons, List.any_nil, Bool.or_assoc]

/-- C4: the message mapping produces the success message when the
classifier fired, the cautionary message when it did not and the status is
200, and otherwise a message embedding the literal numeric status code. -/
theorem message_mapping_three_cases (valid : Bool) (statusCode : Nat) :
    (valid = true →
      selectMessage valid statusCode = "✅ Feed looks valid! Ready to save.") ∧
    (valid = false → statusCode = 200 →
      selectMessage valid statusCode =
        "⚠️ URL accessible but doesn't appear to be an RSS feed") ∧
    (valid = false → statusCode ≠ 200 →
      jsIncludes (selectMessage valid statusCode) (toString statusCode) = true) := by
  refine ⟨fun h => by simp [selectMessage, h],
    fun h h2 => by simp [selectMessage, h, h2], fun h h2 => ?_⟩
  have hmsg : selectMessage valid statusCode =
      "⚠️ HTTP " ++ toString statusCode ++
        " - Server responded but may not be a valid feed" := by
    simp [selectMessage, h, h2]
  rw [hmsg]
  exact jsIncludes_append_mid _ _ _

theorem message_mapping_three_cases_witness :
    jsIncludes (selectMessage false 404) (toString 404) = true :=
  (message_mapping_three_cases false 404).2.2 rfl (by decide)

/-- C5: the wall-clock timeout rejection carries no machine-readable code,
so the catch block does not select the timeout-specific message but falls
back to the generic prefix plus the raw message; an error that did carry
the ETIMEDOUT code would get the timeout-specific message; end to end the
handler returns 500 with the generic message. -/
theorem timeout_rejection_gets_generic_message :
    selectErrorMessage timeoutRejection = "Error testing feed: Request timeout" ∧
    selectErrorMessage timeoutRejection ≠
      "Request timeout - server took too long to respond" ∧
    selectErrorMessage { code := some "ETIMEDOUT", message := "Request timeout" } =
      "Request timeout - server took too long to respond" ∧
    rssHandler { httpMethod := "POST", body := some "request" }
      { parseBody := some { url := .str "http://example.com/feed" },
        parseUrl := fun _ =>
          some { protocol := "http:", hostname := "example.com", port := "",
                 pathname := "/feed", search := "" },
        fetch := fun _ => .failure timeoutRejection,
        now := "2026-01-01T00:00:00.000Z" } =
      { statusCode := 500,
        body := [("success", .bool false),
                 ("error", .str "Error testing feed: Request timeout"),
                 ("timestamp", .str "2026-01-01T00:00:00.000Z")] } := by
  refine ⟨by decide, by decide, by decide, by rfl⟩

/-- C6: when the parsed URL has a scheme other than http or https, the
handler returns the 400 scheme rejection, whatever the fetch oracle does:
the fetch client is never consulted. -/
theorem non_http_scheme_rejected_before_fetch
    (event : Event) (oracle : RssOracle) (requestData : RequestData)
    (url : String) (parsedUrl : ParsedUrl)
    (hMethod : event.httpMethod = "POST")
    (hParse : oracle.parseBody = some requestData)
    (hUrl : requestData.url = .str url) (hNonEmpty : url ≠ "")
    (hParsed : oracle.parseUrl url = some parsedUrl)
    (hScheme1 : parsedUrl.protocol ≠ "http:")
    (hScheme2 : parsedUrl.protocol ≠ "https:") :
    rssHandler event oracle = resp400 "Only HTTP and HTTPS URLs are allowed" ∧
    ∀ f : ParsedUrl → FetchOutcome,
      rssHandler event { oracle with fetch := f } =
        resp400 "Only HTTP and HTTPS URLs are allowed" := by
  constructor
  · simp [rssHandler, hMethod, hParse, hUrl, hNonEmpty, hParsed, hScheme1, hScheme2]
  · intro f
    simp [rssHandler, hMethod, hParse, hUrl, hNonEmpty, hParsed, hScheme1, hScheme2]

theorem non_http_scheme_rejected_before_fetch_witness :
    rssHandler { httpMethod := "POST", body := some "request" }
      { parseBody := some { url := .str "ftp://example.com/feed.xml" },
        parseUrl := fun _ =>
          some { protocol := "ftp:", hostname := "example.com", port := "",
                 pathname := "/feed.xml", search := "" },
        fetch := fun _ => .failure timeoutRejection,
        now := "ts" } = resp400 "Only HTTP and HTTPS URLs are allowed" :=
  (non_http_scheme_rejected_before_fetch _ _ _ "ftp://example.com/feed.xml" _
    rfl rfl rfl (by decide) rfl (by decide) (by decide)).1

/-- C7 counterexample: the empty string is not in the valid trigger set,
yet the handler rejects it with the required-field message, which does not
list the valid values. -/
theorem empty_trigger_type_not_listed_message :
    validTriggers.contains "" = false ∧
    triggerHandler
      { headers := some [], httpMethod := "POST", body := some "request" }
      { parseBody := some { trigger_type := .str "", feed_id := none },
        env := { GITHUB_TOKEN := some "token", GITHUB_OWNER := some "owner",
                 GITHUB_REPO := some "repo", nodeEnvDevelopment := false },
        github := .response 204 "",
        parseGithubError := fun _ => none,
        stackVal := "",
        now := "ts" } =
      .ok (resp400 "trigger_type is required and must be a string") ∧
    jsIncludes "trigger_type is required and must be a string" "new_feed" = false ∧
    jsIncludes "trigger_type is required and must be a string" "full_refresh" = false ∧
    jsIncludes "trigger_type is required and must be a string" "scheduled" = false ∧
    jsIncludes "trigger_type is required and must be a string" "cleanup_only" = false := by
  refine ⟨by decide, by rfl, by decide, by decide, by decide, by decide⟩

/-- C7 (amended): every dispatch request whose trigger_type is a non-empty
string outside the valid set is rejected with 400 and the message listing
the valid values, for every behaviour of the environment and of the GitHub
oracle (no upstream call is consulted); the listing message contains every
valid value. -/
theorem invalid_trigger_type_rejected_before_upstream
    (event : TriggerEvent) (oracle : TriggerOracle) (hs : List (String × String))
    (requestData : TriggerData) (t b : String)
    (hHeaders : event.headers = some hs) (hMethod : event.httpMethod = "POST")
    (hBody : event.body = some b) (hB : b ≠ "")
    (hParse : oracle.parseBody = some requestData)
    (hT : requestData.trigger_type = .str t) (hTNe : t ≠ "")
    (hNotMem : t ∉ validTriggers) :
    triggerHandler event oracle = .ok (resp400 invalidTriggerError) ∧
    (∀ v ∈ validTriggers, jsIncludes invalidTriggerError v = true) := by
  have hmem := hNotMem
  simp only [validTriggers, List.mem_cons, List.not_mem_nil, or_false,
    not_or] at hmem
  obtain ⟨m1, m2, m3, m4⟩ := hmem
  constructor
  · simp [triggerHandler, triggerTryBlock, hHeaders, hMethod, hBody, hB,
      hParse, hT, hTNe, validTriggers, m1, m2, m3, m4]
  · decide

theorem invalid_trigger_type_rejected_before_upstream_witness :
    triggerHandler
      { headers := some [("origin", "app")], httpMethod := "POST",
        body := some "request" }
      { parseBody := some { trigger_type := .str "bogus", feed_id := none },
        env := { GITHUB_TOKEN := some "token", GITHUB_OWNER := some "owner",
                 GITHUB_REPO := some "repo", nodeEnvDevelopment := false },
        github := .response 500 "err",
        parseGithubError := fun _ => none,
        stackVal := "", now := "ts" } =
      .ok (resp400 invalidTriggerError) :=
  (invalid_trigger_type_rejected_before_upstream _ _ _ _ "bogus" "request"
    rfl rfl rfl (by decide) rfl rfl (by decide) (by decide)).1

/-- C8: a 204 from the GitHub API is the sole success signal: the dispatch
response has status 200 exactly when the upstream status is 204, in which
case it is the success body whose message contains the trigger type; any
other upstream status produces the failure response embedding the upstream
status code and, when the upstream error body parses with a truthy
message, that message verbatim. -/
theorem upstream_204_sole_success
    (trigger_type : String) (feed_id : Option String) (owner repo : String)
    (oracle : TriggerOracle) (ghStatus : Nat) (ghData : String) :
    ((handleGithubResponse trigger_type feed_id owner repo oracle ghStatus
        ghData).statusCode = 200 ↔ ghStatus = 204) ∧
    (ghStatus = 204 →
      (handleGithubResponse trigger_type feed_id owner repo oracle ghStatus
          ghData).body.lookup "success" = some (.bool true) ∧
      ∃ msg, (handleGithubResponse trigger_type feed_id owner repo oracle
          ghStatus ghData).body.lookup "message" = some (.str msg) ∧
        jsIncludes msg trigger_type = true) ∧
    (ghStatus ≠ 204 →
      (handleGithubResponse trigger_type feed_id owner repo oracle ghStatus
          ghData).statusCode = 500 ∧
      (handleGithubResponse trigger_type feed_id owner repo oracle ghStatus
          ghData).body.lookup "success" = some (.bool false) ∧
      (handleGithubResponse trigger_type feed_id owner repo oracle ghStatus
          ghData).body.lookup "github_status" = some (.num ghStatus) ∧
      (handleGithubResponse trigger_type feed_id owner repo oracle ghStatus
          ghData).body.lookup "github_response" = some (.str ghData) ∧
      ∃ msg, (handleGithubResponse trigger_type feed_id owner repo oracle
          ghStatus ghData).body.lookup "error" = some (.str msg) ∧
        jsIncludes msg (toString ghStatus) = true ∧
        (∀ errorBody m, oracle.parseGithubError ghData = some errorBody →
          errorBody.message = some m → m ≠ "" → jsIncludes msg m = true)) := by
  by_cases h204 : ghStatus = 204
  · subst h204
    refine ⟨by simp [handleGithubResponse], fun _ => ⟨?_, ?_⟩,
      fun hne => absurd rfl hne⟩
    · simp [handleGithubResponse, List.lookup]
    · refine ⟨"GitHub Action triggered successfully for " ++ trigger_type,
        ?_, jsIncludes_append_left _ _⟩
      simp [handleGithubResponse, List.lookup]
  · refine ⟨by simp [handleGithubResponse, h204],
      fun h => absurd h h204, fun _ => ?_⟩
    refine ⟨by simp [handleGithubResponse, h204],
      by simp [handleGithubResponse, h204, List.lookup],
      by simp [handleGithubResponse, h204, List.lookup],
      by simp [handleGithubResponse, h204, List.lookup], ?_⟩
    rcases hp : oracle.parseGithubError ghData with _ | errorBody
    · refine ⟨"GitHub API returned status " ++ toString ghStatus, ?_,
        jsIncludes_append_left _ _, ?_⟩
      · simp [handleGithubResponse, h204, hp, List.lookup]
      · intro eb m hpe
        exact absurd hpe (by simp)
    · rcases hm : errorBody.message with _ | m
      · refine ⟨"GitHub API returned status " ++ toString ghStatus, ?_,
          jsIncludes_append_left _ _, ?_⟩
        · simp [handleGithubResponse, h204, hp, hm, List.lookup]
        · intro eb m hpe hme
          obtain rfl : errorBody = eb := Option.some.inj hpe
          rw [hm] at hme
          exact absurd hme (by simp)
      · by_cases hme : m = ""
        · subst hme
          refine ⟨"GitHub API returned status " ++ toString ghStatus, ?_,
            jsIncludes_append_left _ _, ?_⟩
          · simp [handleGithubResponse, h204, hp, hm, List.lookup]
          · intro eb m2 hpe hme2 hne2
            obtain rfl : errorBody = eb := Option.some.inj hpe
            rw [hm] at hme2
            obtain rfl : (("" : String)) = m2 := Option.some.inj hme2
            exact absurd rfl hne2
        · refine ⟨"GitHub API returned status " ++ toString ghStatus ++ ": " ++ m,
            ?_, ?_, ?_⟩
          · simp [handleGithubResponse, h204, hp, hm, hme, List.lookup]
          · have h := jsIncludes_append_mid "GitHub API returned status "
              (toString ghStatus) (": " ++ m)
            rwa [← String.append_assoc] at h
          · intro eb m2 hpe hme2 hne2
            obtain rfl : errorBody = eb := Option.some.inj hpe
            rw [hm] at hme2
            obtain rfl : m = m2 := Option.some.inj hme2
            exact jsIncludes_append_left _ _

theorem upstream_204_sole_success_witness :
    (handleGithubResponse "new_feed" none "owner" "repo"
      { parseBody := none,
        env := { GITHUB_TOKEN := some "token", GITHUB_OWNER := some "owner",
                 GITHUB_REPO := some "repo", nodeEnvDevelopment := false },
        github := .response 204 "",
        parseGithubError := fun _ => none,
        stackVal := "", now := "ts" } 204 "").body.lookup "success" =
      some (.bool true) ∧
    (handleGithubResponse "new_feed" none "owner" "repo"
      { parseBody := none,
        env := { GITHUB_TOKEN := some "token", GITHUB_OWNER := some "owner",
                 GITHUB_REPO := some "repo", nodeEnvDevelopment := false },
        github := .response 404 "nf",
        parseGithubError := fun _ => none,
        stackVal := "", now := "ts" } 404 "nf").statusCode = 500 :=
  ⟨((upstream_204_sole_success "new_feed" none "owner" "repo"
      { parseBody := none,
        env := { GITHUB_TOKEN := some "token", GITHUB_OWNER := some "owner",
                 GITHUB_REPO := some "repo", nodeEnvDevelopment := false },
        github := .response 204 "",
        parseGithubError := fun _ => none,
        stackVal := "", now := "ts" } 204 "").2.1 rfl).1,
   ((upstream_204_sole_success "new_feed" none "owner" "repo"
      { parseBody := none,
        env := { GITHUB_TOKEN := some "token", GITHUB_OWNER := some "owner",
                 GITHUB_REPO := some "repo", nodeEnvDevelopment := false },
        github := .response 404 "nf",
        parseGithubError := fun _ => none,
        stackVal := "", now := "ts" } 404 "nf").2.2 (by decide)).1⟩

/-- Every ok result of the try block of the trigger handler carries one of
the status codes 200, 400 or 500. -/
theorem triggerTryBlock_statusCodes (event : TriggerEvent)
    (oracle : TriggerOracle) (r : Response)
    (h : triggerTryBlock event oracle = .ok r) :
    r.statusCode = 200 ∨ r.statusCode = 400 ∨ r.statusCode = 500 := by
  simp only [triggerTryBlock] at h
  repeat' split at h
  any_goals exact (Except.noConfusion h)
  all_goals injection h with h
  all_goals subst h
  all_goals try (simp [resp400]; done)
  all_goals (unfold handleGithubResponse; split <;> simp)

/-- C9 counterexample: an event without a headers object makes the
trigger handler throw the TypeError from reading origin on undefined,
before its try block: the error escapes to the hosting runtime. -/
theorem trigger_handler_missing_headers_throws :
    triggerHandler { headers := none, httpMethod := "POST", body := some "request" }
      { parseBody := some { trigger_type := .str "new_feed", feed_id := none },
        env := { GITHUB_TOKEN := some "token", GITHUB_OWNER := some "owner",
                 GITHUB_REPO := some "repo", nodeEnvDevelopment := false },
        github := .response 204 "",
        parseGithubError := fun _ => none,
        stackVal := "", now := "ts" } = .error originTypeError := rfl

/-- C9 (amended): for every event and oracle the test-rss handler returns
a JSON response with status 200, 400, 405 or 500; for every event whose
headers object is present the trigger handler likewise returns a response
and never lets an error escape, whatever the parse, environment and
upstream oracles do. -/
theorem handlers_return_structured_json
    (event : Event) (oracle : RssOracle)
    (tevent : TriggerEvent) (oracleT : TriggerOracle)
    (hs : List (String × String)) (hHeaders : tevent.headers = some hs) :
    ((rssHandler event oracle).statusCode = 200 ∨
     (rssHandler event oracle).statusCode = 400 ∨
     (rssHandler event oracle).statusCode = 405 ∨
     (rssHandler event oracle).statusCode = 500) ∧
    (∃ r : Response, triggerHandler tevent oracleT = .ok r ∧
      (r.statusCode = 200 ∨ r.statusCode = 400 ∨ r.statusCode = 405 ∨
       r.statusCode = 500)) := by
  constructor
  · unfold rssHandler
    repeat' split
    all_goals simp [resp400]
  · simp only [triggerHandler, hHeaders]
    split
    · exact ⟨_, rfl, Or.inl rfl⟩
    · split
      · exact ⟨_, rfl, Or.inr (Or.inr (Or.inl rfl))⟩
      · rcases htb : triggerTryBlock tevent oracleT with e | r2
        · exact ⟨_, rfl, Or.inr (Or.inr (Or.inr rfl))⟩
        · refine ⟨r2, rfl, ?_⟩
          rcases triggerTryBlock_statusCodes tevent oracleT r2 htb with h | h | h
          · exact Or.inl h
          · exact Or.inr (Or.inl h)
          · exact Or.inr (Or.inr (Or.inr h))

theorem handlers_return_structured_json_witness :
    ((rssHandler { httpMethod := "GET", body := none }
        { parseBody := none, parseUrl := fun _ => none,
          fetch := fun _ => .failure timeoutRejection,
          now := "ts" }).statusCode = 200 ∨
     (rssHandler { httpMethod := "GET", body := none }
        { parseBody := none, parseUrl := fun _ => none,
          fetch := fun _ => .failure timeoutRejection,
          now := "ts" }).statusCode = 400 ∨
     (rssHandler { httpMethod := "GET", body := none }
        { parseBody := none, parseUrl := fun _ => none,
          fetch := fun _ => .failure timeoutRejection,
          now := "ts" }).statusCode = 405 ∨
     (rssHandler { httpMethod := "GET", body := none }
        { parseBody := none, parseUrl := fun _ => none,
          fetch := fun _ => .failure timeoutRejection,
          now := "ts" }).statusCode = 500) ∧
    (∃ r : Response, triggerHandler
        { headers := some [], httpMethod := "DELETE", body := none }
        { parseBody := none,
          env := { GITHUB_TOKEN := none, GITHUB_OWNER := none,
                   GITHUB_REPO := none, nodeEnvDevelopment := false },
          github := .reqError timeoutRejection,
          parseGithubError := fun _ => none,
          stackVal := "", now := "ts" } = .ok r ∧
      (r.statusCode = 200 ∨ r.statusCode = 400 ∨ r.statusCode = 405 ∨
       r.statusCode = 500)) :=
  handlers_return_structured_json
    { httpMethod := "GET", body := none }
    { parseBody := none, parseUrl := fun _ => none,
      fetch := fun _ => .failure timeoutRejection, now := "ts" }
    { headers := some [], httpMethod := "DELETE", body := none }
    { parseBody := none,
      env := { GITHUB_TOKEN := none, GITHUB_OWNER := none,
               GITHUB_REPO := none, nodeEnvDevelopment := false },
      github := .reqError timeoutRejection,
      parseGithubError := fun _ => none,
      stackVal := "", now := "ts" } [] rfl
